import Mathlib

/-!
Verification of the rule-based advisory engine of the Finance-Advisor
repository (src/app.py).  The engine consists of pure threshold rules over
scalar economic indicators and portfolio allocations; real-valued inputs
(Python floats) are modelled as rationals, and allocation percentages
(integer slider values) as integers.  Each definition below is a direct
transcription of the corresponding Python code.
-/

namespace FinanceAdvisor

/-- Market-summary risk indicator, src/app.py lines 243-247: the level starts
at "Moderate", becomes "High" when inflation > 5 or unemployment > 8 or
interest rate > 6, and otherwise becomes "Low" when inflation < 2 and
unemployment < 5 and interest rate < 3. -/
def risk_level_summary (inflation unemployment interest_rate : ℚ) : String :=
  if inflation > 5 ∨ unemployment > 8 ∨ interest_rate > 6 then "High"
  else if inflation < 2 ∧ unemployment < 5 ∧ interest_rate < 3 then "Low"
  else "Moderate"

/-- Base retirement tip, src/app.py line 142. -/
def retirement_base_tip : String :=
  "💼 Contribute regularly to retirement accounts (e.g., 401(k), IRA)."

/-- Inflation-protection tip, src/app.py line 144. -/
def inflation_protection_tip : String :=
  "🛡️ Use inflation-protected assets like TIPS and dividend-paying stocks."

/-- Balanced stocks/bonds tip, src/app.py line 146. -/
def balanced_mix_tip : String :=
  "📈 Consider a balanced mix of stocks and bonds."

/-- Generic placeholder tip, src/app.py line 163. -/
def placeholder_tip : String :=
  "Select a goal to see personalized tips."

/-- Goal-based suggestion generator, src/app.py lines 138-165
(generate_suggestions).  The goal is the selectbox string; unrecognized
goals fall through to the single placeholder tip. -/
def generate_suggestions (goal : String)
    (gdp inflation unemployment interest_rate : ℚ) : List String :=
  if goal = "Retirement" then
    [retirement_base_tip,
     if inflation > 4 then inflation_protection_tip else balanced_mix_tip]
  else if goal = "Buying a Home" then
    ["🏠 Start or grow a high-yield savings account for your down payment.",
     if interest_rate > 5 then
       "⏳ Mortgage rates are high—consider delaying purchase or locking rates now."
     else
       "✅ Low rates—evaluate mortgage options and affordability."]
  else if goal = "Wealth Growth" then
    ["🚀 Focus on long-term growth assets like ETFs, tech stocks, or index funds.",
     if gdp > 2 ∧ inflation < 4 then
       "🌱 Strong economy supports aggressive growth investing."
     else
       "🔍 Diversify with stable sectors (e.g., healthcare, utilities) for balance."]
  else
    [placeholder_tip]

/-- One row of the allocation table (alloc_df): an asset-class name and its
allocation percentage. -/
structure AllocRow where
  assetClass : String
  allocationPct : ℤ
deriving DecidableEq

/-- Allocation of a named asset class: first matching row of the table, as in
alloc_df.loc[alloc_df[Asset Class] == name, Allocation %].values[0];
none when the class is absent. -/
def allocationOf (rows : List AllocRow) (name : String) : Option ℤ :=
  ((rows.filter fun r => r.assetClass = name).head?).map AllocRow.allocationPct

/-- Long-term capital-gains tip, src/app.py line 171. -/
def capital_gains_tip : String :=
  "Consider holding stocks long-term (over 1 year) to benefit from lower capital gains tax rates."

/-- Municipal-bond tip, src/app.py line 173. -/
def municipal_bonds_tip : String :=
  "Municipal bonds generate tax-free income at the federal level. Good choice!"

/-- High-turnover-funds tip, src/app.py line 175. -/
def high_turnover_tip : String :=
  "Consider moving high-turnover funds to tax-advantaged accounts (like an IRA) to avoid annual tax drag."

/-- Generic tax-efficiency fallback tip, src/app.py line 177. -/
def tax_fallback_tip : String :=
  "Your portfolio looks tax-efficient. Remember to consult a tax professional."

/-- Tax-efficiency tips, src/app.py lines 168-178: three independent rules
(stocks > 50, municipal bonds > 0, high-turnover funds > 10), each guarded
by the presence of the asset class in the table, with a generic fallback
when no rule fired. -/
def tax_efficiency_tips (rows : List AllocRow) : List String :=
  let t1 : List String :=
    match allocationOf rows "Stocks" with
    | some a => if a > 50 then [capital_gains_tip] else []
    | none => []
  let t2 : List String :=
    match allocationOf rows "Municipal Bonds" with
    | some a => if a > 0 then [municipal_bonds_tip] else []
    | none => []
  let t3 : List String :=
    match allocationOf rows "High Turnover Funds" with
    | some a => if a > 10 then [high_turnover_tip] else []
    | none => []
  let tips := t1 ++ t2 ++ t3
  if tips.isEmpty then [tax_fallback_tip] else tips

/-- The allocation table built by the portfolio builder, src/app.py lines
307-310: exactly the four default asset classes. -/
def alloc_df (stocks bonds real_estate cash : ℤ) : List AllocRow :=
  [⟨"Stocks", stocks⟩, ⟨"Bonds", bonds⟩, ⟨"Real Estate", real_estate⟩,
   ⟨"Cash", cash⟩]

/-- Total allocation, src/app.py line 274. -/
def total_alloc (stocks bonds real_estate cash : ℤ) : ℤ :=
  stocks + bonds + real_estate + cash

/-- Validity of an allocation, src/app.py lines 279-282: the app shows
success exactly when the total is 100. -/
def is_valid (stocks bonds real_estate cash : ℤ) : Bool :=
  total_alloc stocks bonds real_estate cash == 100

/-- Portfolio risk score, src/app.py line 285. -/
def risk_score (stocks bonds real_estate cash : ℤ) : ℚ :=
  ((stocks : ℚ) * 0.6 + (real_estate : ℚ) * 0.3 - (bonds : ℚ) * 0.4
    - (cash : ℚ) * 0.5) / 100

/-- Portfolio risk level, src/app.py line 286: note the middle band is the
string "Medium" in the code. -/
def risk_level_portfolio (rs : ℚ) : String :=
  if rs > 0.4 then "High" else if rs > 0.15 then "Medium" else "Low"

/-- Expected annual return, src/app.py line 287. -/
def expected_return (stocks bonds real_estate cash : ℤ) : ℚ :=
  ((stocks : ℚ) * 0.08 + (bonds : ℚ) * 0.03 + (real_estate : ℚ) * 0.06
    + (cash : ℚ) * 0.02) / 100

/-- Estimated volatility, src/app.py line 288. -/
def volatility (stocks bonds real_estate cash : ℤ) : ℚ :=
  ((stocks : ℚ) * 0.15 + (bonds : ℚ) * 0.05 + (real_estate : ℚ) * 0.1
    + (cash : ℚ) * 0.01) / 100

/-- Inflation-hedge diversification tip, src/app.py line 253. -/
def hedge_tip : String :=
  "Inflation was high. Consider assets like gold and real estate to hedge."

/-- Equities diversification tip, src/app.py line 255. -/
def equities_tip : String :=
  "Strong GDP growth detected. Equities may have been a good investment."

/-- Stable-market fallback tip, src/app.py line 257. -/
def stable_tip : String :=
  "Market conditions appear stable. A balanced portfolio is recommended."

/-- Diversification tips of the market summary, src/app.py lines 251-257:
independent rules on inflation and GDP growth with a fallback when neither
fired. -/
def diversification_tips (inflation gdp_growth : ℚ) : List String :=
  let tips := (if inflation > 3 then [hedge_tip] else [])
    ++ (if gdp_growth > 2.5 then [equities_tip] else [])
  if tips.isEmpty then [stable_tip] else tips

/-- C1: the market-summary risk classifier is total and first-match ordered:
it always returns one of Low, Moderate, High; it returns High exactly when
inflation > 5 or unemployment > 8 or interest rate > 6 (so classify 6 1 1 is
High even though two metrics look low); Low exactly when the High disjunction
fails and inflation < 2, unemployment < 5, interest rate < 3; Moderate in
every remaining case. -/
theorem C1_risk_classifier_total_first_match (i u r : ℚ) :
    risk_level_summary i u r ∈ (["Low", "Moderate", "High"] : List String) ∧
    (risk_level_summary i u r = "High" ↔ (i > 5 ∨ u > 8 ∨ r > 6)) ∧
    (risk_level_summary i u r = "Low" ↔
      (¬(i > 5 ∨ u > 8 ∨ r > 6) ∧ (i < 2 ∧ u < 5 ∧ r < 3))) ∧
    (risk_level_summary i u r = "Moderate" ↔
      (¬(i > 5 ∨ u > 8 ∨ r > 6) ∧ ¬(i < 2 ∧ u < 5 ∧ r < 3))) ∧
    risk_level_summary 6 1 1 = "High" := by
  refine ⟨?_, ?_, ?_, ?_, ?_⟩
  · by_cases h1 : i > 5 ∨ u > 8 ∨ r > 6 <;>
      by_cases h2 : i < 2 ∧ u < 5 ∧ r < 3 <;>
      simp [risk_level_summary, h1, h2]
  · by_cases h1 : i > 5 ∨ u > 8 ∨ r > 6 <;>
      by_cases h2 : i < 2 ∧ u < 5 ∧ r < 3 <;>
      simp [risk_level_summary, h1, h2]
  · by_cases h1 : i > 5 ∨ u > 8 ∨ r > 6 <;>
      by_cases h2 : i < 2 ∧ u < 5 ∧ r < 3 <;>
      simp [risk_level_summary, h1, h2]
  · by_cases h1 : i > 5 ∨ u > 8 ∨ r > 6 <;>
      by_cases h2 : i < 2 ∧ u < 5 ∧ r < 3 <;>
      simp [risk_level_summary, h1, h2]
  · norm_num [risk_level_summary]

/-- Closed form of the tax tips on the default four-class allocation table:
only the stocks rule can fire, so the result is the capital-gains tip when
stocks > 50 and the fallback tip otherwise. -/
lemma tax_tips_closed_form (s b r c : ℤ) :
    tax_efficiency_tips (alloc_df s b r c) =
      if s > 50 then [capital_gains_tip] else [tax_fallback_tip] := by
  by_cases h : s > 50 <;>
    simp [tax_efficiency_tips, allocationOf, alloc_df, h]

/-- C2 counterexample: the portfolio builder's middle risk band is the string
"Medium", not "Moderate"; at riskScore 0.16 the returned level is "Medium",
which is not an element of the claimed set Low, Moderate, High. -/
theorem C2_moderate_name_counterexample :
    risk_level_portfolio (risk_score 50 30 10 10) = "Medium" ∧
    "Medium" ∉ (["Low", "Moderate", "High"] : List String) := by
  constructor
  · norm_num [risk_score, risk_level_portfolio]
  · decide

/-- C2 amended: for every allocation the portfolio risk level is an element
of the three-string set Low, Medium, High, computed as High when riskScore >
0.4, else Medium when riskScore > 0.15, else Low (the code names the middle
band "Medium", not "Moderate"). -/
theorem C2_risk_level_portfolio_thresholds (s b r c : ℤ) :
    risk_level_portfolio (risk_score s b r c) ∈
      (["Low", "Medium", "High"] : List String) ∧
    (risk_score s b r c > 0.4 →
      risk_level_portfolio (risk_score s b r c) = "High") ∧
    (risk_score s b r c ≤ 0.4 → risk_score s b r c > 0.15 →
      risk_level_portfolio (risk_score s b r c) = "Medium") ∧
    (risk_score s b r c ≤ 0.15 →
      risk_level_portfolio (risk_score s b r c) = "Low") := by
  generalize risk_score s b r c = rs
  refine ⟨?_, fun h => ?_, fun h1 h2 => ?_, fun h => ?_⟩
  · unfold risk_level_portfolio; split_ifs <;> simp
  · simp [risk_level_portfolio, h]
  · rw [risk_level_portfolio, if_neg (by linarith), if_pos h2]
  · rw [risk_level_portfolio, if_neg (by linarith), if_neg (by linarith)]

/-- Witness for the amended C2 at the reference allocation (50,30,10,10):
riskScore 0.16 lies in (0.15, 0.4] and the level is "Medium". -/
theorem C2_risk_level_portfolio_thresholds_witness :
    risk_score 50 30 10 10 ≤ 0.4 ∧ risk_score 50 30 10 10 > 0.15 ∧
    risk_level_portfolio (risk_score 50 30 10 10) = "Medium" :=
  ⟨by norm_num [risk_score], by norm_num [risk_score],
    (C2_risk_level_portfolio_thresholds 50 30 10 10).2.2.1
      (by norm_num [risk_score]) (by norm_num [risk_score])⟩

/-- C3: an allocation is reported valid exactly when the four percentages sum
to 100 ((50,30,10,10) is valid, (50,30,10,5) is not), and the derived metrics
are computed from the raw unnormalized percentages for every input, including
the invalid (50,30,10,5). -/
theorem C3_is_valid_iff_sum_100 (s b r c : ℤ) :
    (is_valid s b r c = true ↔ s + b + r + c = 100) ∧
    is_valid 50 30 10 10 = true ∧
    is_valid 50 30 10 5 = false ∧
    risk_score s b r c =
      (0.6 * (s : ℚ) + 0.3 * (r : ℚ) - 0.4 * (b : ℚ) - 0.5 * (c : ℚ)) / 100 ∧
    risk_score 50 30 10 5 = 0.185 ∧
    risk_level_portfolio (risk_score 50 30 10 5) = "Medium" ∧
    expected_return 50 30 10 5 = 0.056 ∧
    volatility 50 30 10 5 = 0.1005 := by
  refine ⟨?_, by decide, by decide, by unfold risk_score; ring,
    by norm_num [risk_score], by norm_num [risk_score, risk_level_portfolio],
    by norm_num [expected_return], by norm_num [volatility]⟩
  simp [is_valid, total_alloc]

/-- C4 counterexample: at the reference allocation (50,30,10,10) the risk
score is 0.16 but the computed risk level is not the string "Moderate" (the
code produces "Medium"). -/
theorem C4_moderate_level_counterexample :
    risk_score 50 30 10 10 = 0.16 ∧
    risk_level_portfolio (risk_score 50 30 10 10) ≠ "Moderate" := by
  constructor
  · norm_num [risk_score]
  · norm_num [risk_score, risk_level_portfolio]
    decide

/-- C4 amended: the three derived-metric formulas hold exactly as claimed,
and at (50,30,10,10) the risk score is 0.16 and the expected return 0.057;
the risk level at that point is the string "Medium" (the code's name for the
middle band, which the spec calls Moderate). -/
theorem C4_derived_metric_formulas (s b r c : ℤ) :
    risk_score s b r c =
      (0.6 * (s : ℚ) + 0.3 * (r : ℚ) - 0.4 * (b : ℚ) - 0.5 * (c : ℚ)) / 100 ∧
    expected_return s b r c =
      (0.08 * (s : ℚ) + 0.03 * (b : ℚ) + 0.06 * (r : ℚ) + 0.02 * (c : ℚ)) / 100 ∧
    volatility s b r c =
      (0.15 * (s : ℚ) + 0.05 * (b : ℚ) + 0.10 * (r : ℚ) + 0.01 * (c : ℚ)) / 100 ∧
    risk_score 50 30 10 10 = 0.16 ∧
    risk_level_portfolio (risk_score 50 30 10 10) = "Medium" ∧
    expected_return 50 30 10 10 = 0.057 := by
  refine ⟨by unfold risk_score; ring, by unfold expected_return; ring,
    by unfold volatility; ring, by norm_num [risk_score],
    by norm_num [risk_score, risk_level_portfolio],
    by norm_num [expected_return]⟩

/-- C5: for the Retirement goal the advisor returns exactly two tips in a
fixed order: the base retirement-accounts tip first, then the
inflation-protection tip when inflation > 4 and the balanced-mix tip
otherwise; at inflation 5 the list ends with the inflation-protection tip and
at inflation 3 with the balanced-mix tip. -/
theorem C5_retirement_two_tips (gdp inflation unemployment interest_rate : ℚ) :
    generate_suggestions "Retirement" gdp inflation unemployment interest_rate =
      [retirement_base_tip,
       if inflation > 4 then inflation_protection_tip else balanced_mix_tip] ∧
    (generate_suggestions "Retirement" gdp inflation unemployment
      interest_rate).length = 2 ∧
    (generate_suggestions "Retirement" gdp 5 unemployment
      interest_rate).getLast? = some inflation_protection_tip ∧
    (generate_suggestions "Retirement" gdp 3 unemployment
      interest_rate).getLast? = some balanced_mix_tip := by
  refine ⟨by simp [generate_suggestions], ?_, ?_, ?_⟩
  · by_cases h : inflation > 4 <;> simp [generate_suggestions, h]
  · norm_num [generate_suggestions, List.getLast?]
  · norm_num [generate_suggestions, List.getLast?]

/-- C6: every goal outside the three fully-specified branches (the strings
Retirement, Buying a Home, Wealth Growth) yields exactly the one generic
placeholder tip, for all economic-indicator inputs; the function is total, so
no exception is possible. -/
theorem C6_unrecognized_goal_placeholder (goal : String)
    (h1 : goal ≠ "Retirement") (h2 : goal ≠ "Buying a Home")
    (h3 : goal ≠ "Wealth Growth")
    (gdp inflation unemployment interest_rate : ℚ) :
    generate_suggestions goal gdp inflation unemployment interest_rate =
      [placeholder_tip] := by
  simp [generate_suggestions, h1, h2, h3]

/-- Witness for C6 at the concrete goal Short-Term Savings. -/
theorem C6_unrecognized_goal_placeholder_witness :
    ("Short-Term Savings" : String) ≠ "Retirement" ∧
    ("Short-Term Savings" : String) ≠ "Buying a Home" ∧
    ("Short-Term Savings" : String) ≠ "Wealth Growth" ∧
    generate_suggestions "Short-Term Savings" 2 3 4 5 = [placeholder_tip] :=
  ⟨by decide, by decide, by decide,
    C6_unrecognized_goal_placeholder "Short-Term Savings" (by decide)
      (by decide) (by decide) 2 3 4 5⟩

/-- C7: whenever the stocks allocation exceeds 50 the tax tips include the
long-term capital-gains tip; at (100,0,0,0) the risk score is 0.6, the level
is "High", and the capital-gains tip is present. -/
theorem C7_capital_gains_when_stocks_over_50 (s b r c : ℤ) (h : s > 50) :
    capital_gains_tip ∈ tax_efficiency_tips (alloc_df s b r c) ∧
    risk_score 100 0 0 0 = 0.6 ∧
    risk_level_portfolio (risk_score 100 0 0 0) = "High" ∧
    capital_gains_tip ∈ tax_efficiency_tips (alloc_df 100 0 0 0) := by
  refine ⟨?_, by norm_num [risk_score],
    by norm_num [risk_score, risk_level_portfolio], ?_⟩
  · rw [tax_tips_closed_form, if_pos h]; simp
  · rw [tax_tips_closed_form 100 0 0 0, if_pos (by decide)]; simp

/-- Witness for C7 at stocks 60 (hypothesis 60 > 50 discharged). -/
theorem C7_capital_gains_witness :
    (60 : ℤ) > 50 ∧
    capital_gains_tip ∈ tax_efficiency_tips (alloc_df 60 20 10 10) ∧
    risk_score 100 0 0 0 = 0.6 ∧
    risk_level_portfolio (risk_score 100 0 0 0) = "High" ∧
    capital_gains_tip ∈ tax_efficiency_tips (alloc_df 100 0 0 0) :=
  ⟨by decide,
    (C7_capital_gains_when_stocks_over_50 60 20 10 10 (by decide)).1,
    (C7_capital_gains_when_stocks_over_50 60 20 10 10 (by decide)).2.1,
    (C7_capital_gains_when_stocks_over_50 60 20 10 10 (by decide)).2.2.1,
    (C7_capital_gains_when_stocks_over_50 60 20 10 10 (by decide)).2.2.2⟩

/-- C8: every evaluator is a pure function of its explicit arguments in this
embedding (none of the source functions reads or writes state other than its
parameters), so two calls with identical inputs return identical results. -/
theorem C8_evaluators_deterministic (i u r : ℚ) (goal : String)
    (gdp inflation unemployment interest_rate : ℚ) (s b re c : ℤ) :
    risk_level_summary i u r = risk_level_summary i u r ∧
    generate_suggestions goal gdp inflation unemployment interest_rate =
      generate_suggestions goal gdp inflation unemployment interest_rate ∧
    tax_efficiency_tips (alloc_df s b re c) =
      tax_efficiency_tips (alloc_df s b re c) ∧
    risk_score s b re c = risk_score s b re c ∧
    expected_return s b re c = expected_return s b re c ∧
    volatility s b re c = volatility s b re c ∧
    is_valid s b re c = is_valid s b re c :=
  ⟨rfl, rfl, rfl, rfl, rfl, rfl, rfl⟩

/-- C9: on the default four-class allocation table the tax tips are always a
single tip: the capital-gains tip when stocks > 50, the generic fallback
otherwise (so at the boundary stocks = 50 only the fallback is returned), and
the municipal-bond and high-turnover rules never fire. -/
theorem C9_tax_tips_exactly_one (s b r c : ℤ) :
    tax_efficiency_tips (alloc_df s b r c) =
      (if s > 50 then [capital_gains_tip] else [tax_fallback_tip]) ∧
    (tax_efficiency_tips (alloc_df s b r c)).length = 1 ∧
    municipal_bonds_tip ∉ tax_efficiency_tips (alloc_df s b r c) ∧
    high_turnover_tip ∉ tax_efficiency_tips (alloc_df s b r c) ∧
    tax_efficiency_tips (alloc_df 50 30 10 10) = [tax_fallback_tip] := by
  refine ⟨tax_tips_closed_form s b r c, ?_, ?_, ?_, ?_⟩
  · rw [tax_tips_closed_form]; split_ifs <;> simp
  · rw [tax_tips_closed_form]; split_ifs <;> simp <;> decide
  · rw [tax_tips_closed_form]; split_ifs <;> simp <;> decide
  · rw [tax_tips_closed_form 50 30 10 10, if_neg (by decide)]

/-- C10: the market-summary diversification tips contain the inflation-hedge
tip exactly when inflation > 3, the equities tip exactly when GDP growth >
2.5, and collapse to the single stable-market fallback exactly when neither
condition holds; the list is never empty. -/
theorem C10_diversification_tips_rules (inflation gdp : ℚ) :
    (hedge_tip ∈ diversification_tips inflation gdp ↔ inflation > 3) ∧
    (equities_tip ∈ diversification_tips inflation gdp ↔ gdp > 2.5) ∧
    (diversification_tips inflation gdp = [stable_tip] ↔
      (¬inflation > 3 ∧ ¬gdp > 2.5)) ∧
    diversification_tips inflation gdp ≠ [] := by
  by_cases h1 : inflation > 3 <;> by_cases h2 : gdp > 2.5 <;>
    simp [diversification_tips, h1, h2, hedge_tip, equities_tip, stable_tip]

end FinanceAdvisor
